import Mathlib

/-!
Shallow embedding of the tachyfont promise-chaining sequencer
(`tachyfontpromise.js`) and the IndexedDB persistence boundary
(`persist_idb.js`).

Modelling conventions:
* a `goog.Promise` object is identified by a numeric id (`promiseId`);
  the set of ids whose underlying promise has been settled (resolved or
  rejected) is tracked in the sequencer state (`settledIds`) — a
  `goog.Promise` can be settled at most once, later settle calls on the
  same handle are ignored at the promise level;
* the single `tachyfont.chainedPromises` container a unit may point to is
  carried as the explicit state `chainedPromises`; a unit's `container_`
  field becomes the boolean `hasContainer`;
* `goog.DEBUG` and `tachyfont.Reporter.isReady()` are environment facts,
  carried as the state fields `googDebug` and `reporterReady`;
* `goog.log` output is modelled by the `logs` list,
  `tachyfont.Reporter.reportError(code, id, info)` by the `errors` list;
* `setInterval` scheduling is modelled by the `timerActive` flag plus an
  explicit `tick` function (the interval callback); `clearInterval`
  sets `timerActive := false`, after which `tick` is the identity.
-/

namespace tachyfont

/-- A `tachyfont.promise`: wraps one underlying promise (identified by
`promiseId`), the optional preceding promise id, the optional back
reference to the chaining container, and a debug message. -/
structure promise where
  promiseId : Nat
  precedingPromise : Option Nat
  hasContainer : Bool
  msg : String
deriving DecidableEq, Repr, Inhabited

/-- State of a `tachyfont.chainedPromises` container together with the
ambient promise/log/report environment. -/
structure chainedPromises where
  chainedCount : Nat
  pendingCount : Int
  msg : String
  timerReportCount : Nat
  timerActive : Bool
  promises : List promise
  settledIds : List Nat
  nextId : Nat
  logs : List String
  errors : List (String × String)
  googDebug : Bool
  reporterReady : Bool
deriving DecidableEq, Repr

/-- Error file id, from `tachyfont.promise.Error_.FILE_ID`. -/
def promise.Error_.FILE_ID : String := "ETP"

/-- Error number `PRECEDING_PROMISE`. -/
def promise.Error_.PRECEDING_PROMISE : String := "01"

/-- Error number `RESOLVE_CHAINED_COUNT`. -/
def promise.Error_.RESOLVE_CHAINED_COUNT : String := "02"

/-- Error number `REJECT_CHAINED_COUNT`. -/
def promise.Error_.REJECT_CHAINED_COUNT : String := "03"

/-- Error number `LINGERING_PROMISE`. -/
def promise.Error_.LINGERING_PROMISE : String := "04"

/-- The error reporter `tachyfont.promise.reportError_`: forwards to
`tachyfont.Reporter.reportError(FILE_ID + errNum, '000', errInfo)` when
the reporter is ready, otherwise does nothing. -/
def promise.reportError_ (st : chainedPromises) (errNum : String)
    (errInfo : String) : chainedPromises :=
  if st.reporterReady then
    { st with errors := st.errors ++ [(promise.Error_.FILE_ID ++ errNum, errInfo)] }
  else st

/-- Settling the underlying `goog.Promise` named `id`: a promise settles
at most once, so a second settle attempt leaves the settled set unchanged. -/
def settlePromise (id : Nat) (st : chainedPromises) : chainedPromises :=
  if id ∈ st.settledIds then st else { st with settledIds := st.settledIds ++ [id] }

/-- The `tachyfont.promise` constructor: a fresh pending unit; the
preceding promise starts out undefined. -/
def promise.create (opt_container : Bool) (opt_msg : String) (id : Nat) : promise :=
  { promiseId := id, precedingPromise := none, hasContainer := opt_container,
    msg := opt_msg }

/-- `tachyfont.promise.prototype.getPrecedingPromise`: returns the
preceding promise; when it is absent this is reported as a
`PRECEDING_PROMISE` diagnostic and `undefined` is returned. -/
def promise.getPrecedingPromise (p : promise) (st : chainedPromises) :
    Option Nat × chainedPromises :=
  if p.precedingPromise.isNone then
    (p.precedingPromise, promise.reportError_ st promise.Error_.PRECEDING_PROMISE p.msg)
  else
    (p.precedingPromise, st)

/-- `tachyfont.promise.prototype.resolve`: invokes the captured resolver,
then, when the unit belongs to a container, runs the queue-retirement
bookkeeping: on a queue of length at most 1 a nonzero chained count is
reported as a `RESOLVE_CHAINED_COUNT` diagnostic; on a queue of length
greater than 1 the head entry is shifted off and the pending count is
decremented (with a debug log line). -/
def promise.resolve (p : promise) (st : chainedPromises) : chainedPromises :=
  let st1 := settlePromise p.promiseId st
  if p.hasContainer then
    let st2 :=
      if st1.promises.length ≤ 1 then
        if st1.chainedCount ≠ 0 then
          promise.reportError_ st1 promise.Error_.RESOLVE_CHAINED_COUNT p.msg
        else st1
      else st1
    if 1 < st2.promises.length then
      let st3 := { st2 with promises := st2.promises.tail,
                            pendingCount := st2.pendingCount - 1 }
      if st3.googDebug then
        { st3 with logs := st3.logs ++
            [p.msg ++ "dropped count to " ++ toString st3.pendingCount] }
      else st3
    else st2
  else st1

/-- `tachyfont.promise.prototype.reject`: identical bookkeeping to
`resolve` except it invokes the captured rejecter and reports
`REJECT_CHAINED_COUNT` on the short-queue diagnostic path. -/
def promise.reject (p : promise) (st : chainedPromises) : chainedPromises :=
  let st1 := settlePromise p.promiseId st
  if p.hasContainer then
    let st2 :=
      if st1.promises.length ≤ 1 then
        if st1.chainedCount ≠ 0 then
          promise.reportError_ st1 promise.Error_.REJECT_CHAINED_COUNT p.msg
        else st1
      else st1
    if 1 < st2.promises.length then
      let st3 := { st2 with promises := st2.promises.tail,
                            pendingCount := st2.pendingCount - 1 }
      if st3.googDebug then
        { st3 with logs := st3.logs ++
            [p.msg ++ "dropped count to " ++ toString st3.pendingCount] }
      else st3
    else st2
  else st1

/-- The `tachyfont.chainedPromises` constructor: zeroed counters, a
watchdog timer started (modelled by `timerActive := true`,
`timerReportCount := 0`), and a first (sentinel) promise whose preceding
promise is set to its own promise, pushed onto the queue and resolved. -/
def chainedPromises.create (msg : String) (googDebug reporterReady : Bool) :
    chainedPromises :=
  let st : chainedPromises :=
    { chainedCount := 0, pendingCount := 0, msg := msg ++ ": ",
      timerReportCount := 0, timerActive := true, promises := [],
      settledIds := [], nextId := 0, logs := [], errors := [],
      googDebug := googDebug, reporterReady := reporterReady }
  let firstPromise :=
    { promise.create true "" st.nextId with precedingPromise := some st.nextId }
  let st := { st with promises := st.promises ++ [firstPromise],
                      nextId := st.nextId + 1 }
  firstPromise.resolve st

/-- The watchdog interval callback installed by the constructor: while
the timer is scheduled, a tick observing a nonzero pending count logs a
"lingering pending count" line (in debug builds) and increments the miss
streak; a streak reaching 10 reports a `LINGERING_PROMISE` diagnostic
and clears the interval; a tick observing a zero pending count resets
the streak. -/
def chainedPromises.tick (st : chainedPromises) : chainedPromises :=
  if st.timerActive then
    if st.pendingCount ≠ 0 then
      let st1 :=
        if st.googDebug then
          { st with logs := st.logs ++
              [st.msg ++ "lingering pending count: " ++ toString st.pendingCount] }
        else st
      let st2 := { st1 with timerReportCount := st1.timerReportCount + 1 }
      if 10 ≤ st2.timerReportCount then
        let st3 := promise.reportError_ st2 promise.Error_.LINGERING_PROMISE
          (st2.msg ++ "gave up checking for pending count")
        { st3 with timerActive := false }
      else st2
    else { st with timerReportCount := 0 }
  else st

/-- `tachyfont.chainedPromises.prototype.getChainedPromise`: increments
the chained and pending counters, logs the increase (debug builds),
creates a fresh unit owned by this container whose preceding promise is
the promise of the unit currently at the queue tail, appends it to the
queue and returns it.  (In every reachable state the queue is nonempty;
`List.getLast?` models the `promises[promises.length - 1]` access.) -/
def chainedPromises.getChainedPromise (st : chainedPromises) (msg : String) :
    promise × chainedPromises :=
  let st1 := { st with chainedCount := st.chainedCount + 1,
                       pendingCount := st.pendingCount + 1 }
  let st2 :=
    if st1.googDebug then
      { st1 with logs := st1.logs ++
          [st1.msg ++ msg ++ ": increase pending count to " ++
            toString st1.pendingCount] }
    else st1
  let precedingPromise := st2.promises.getLast?
  let newPromise :=
    { promise.create true msg st2.nextId with
        precedingPromise := precedingPromise.map promise.promiseId }
  (newPromise,
    { st2 with promises := st2.promises ++ [newPromise], nextId := st2.nextId + 1 })

namespace Persist

/-- Error file id, from `tachyfont.Persist.Error.FILE_ID`. -/
def Error.FILE_ID : String := "EPI"

/-- Error number `DELETED_DATA`. -/
def Error.DELETED_DATA : String := "03"

/-- Error number `DELETE_DATA_FAILED`. -/
def Error.DELETE_DATA_FAILED : String := "04"

/-- Error number `DELETE_DATA_BLOCKED`. -/
def Error.DELETE_DATA_BLOCKED : String := "05"

/-- A font-data blob: raw bytes. -/
abbrev BytesData := List Nat

/-- One IndexedDB object store: an association of numeric keys to blobs
(`saveData`/`getData` only ever use the fixed key 0). -/
abbrev IdbStore := List (Nat × BytesData)

/-- The backing `store.put(value, key)` of an object store: replaces any
record under `key` with `value`. -/
def storePut (s : IdbStore) (k : Nat) (v : BytesData) : IdbStore :=
  (k, v) :: s.filter (fun kv => kv.1 ≠ k)

/-- The backing `store.get(key)` of an object store: the stored record
under `key`, or `undefined` (here `none`) when there is none. -/
def storeGet (s : IdbStore) (k : Nat) : Option BytesData :=
  (s.find? (fun kv => kv.1 = k)).map (fun kv => kv.2)

/-- The outcome of `tachyfont.Persist.getData`: either the stored bytes
or a rejection. -/
inductive GetFailure where
  | notFound
  | readError
deriving DecidableEq, Repr

/-- `tachyfont.Persist.saveData(idb, name, data)` on the object store
selected by `name`: puts `data` under the fixed key 0 (the returned
promise resolves on transaction success). -/
def saveData (store : IdbStore) (data : BytesData) : IdbStore :=
  storePut store 0 data

/-- `tachyfont.Persist.getData(idb, name)` on the object store selected
by `name`: issues `store.get(0)`; on request success it resolves with
the result when the result is not `undefined` and rejects otherwise. -/
def getData (store : IdbStore) : Except GetFailure BytesData :=
  match storeGet store 0 with
  | some result => Except.ok result
  | none => Except.error GetFailure.notFound

/-- A report sent to `tachyfont.Reporter.reportError`: error code,
error id, and detail string. -/
abbrev Report := String × String × String

/-- The error reporter `tachyfont.Persist.reportError_` as the list of
reports it forwards: one when the reporter is ready, none otherwise. -/
def reportError_ (ready : Bool) (errNum errId errInfo : String) : List Report :=
  if ready then [(Error.FILE_ID ++ errNum, errId, errInfo)] else []

/-- Which callback the `indexedDB.deleteDatabase` request fires. -/
inductive DeleteEvent where
  | onsuccess
  | onerror
  | onblocked
deriving DecidableEq, Repr

/-- `tachyfont.Persist.deleteDatabase(dbName, id)`: on success it reports
`DELETED_DATA` and resolves; on error it reports `DELETE_DATA_FAILED` and
rejects with 1; on blocked it reports `DELETE_DATA_BLOCKED` and rejects
with 2.  The result is the pair of the reports forwarded to the Reporter
(given its readiness) and the promise outcome. -/
def deleteDatabase (ready : Bool) (id : String) (ev : DeleteEvent) :
    List Report × Except Nat Unit :=
  match ev with
  | DeleteEvent.onsuccess =>
      (reportError_ ready Error.DELETED_DATA id "Deleted database successfully",
        Except.ok ())
  | DeleteEvent.onerror =>
      (reportError_ ready Error.DELETE_DATA_FAILED id "Delete database failed",
        Except.error 1)
  | DeleteEvent.onblocked =>
      (reportError_ ready Error.DELETE_DATA_BLOCKED id "Delete database blocked",
        Except.error 2)

end Persist

/-! Test-harness definitions: concrete sequencer runs used to state and
witness the properties. -/

/-- Fold a sequence of `resolve` calls (one per listed unit, in list
order) over a sequencer state: the caller settles these units
successfully in this completion order. -/
def resolveSeq (order : List promise) (st : chainedPromises) : chainedPromises :=
  order.foldl (fun s q => q.resolve s) st

/-- The unit that `getChainedPromise` returns on the k-th call (0-based)
against a sequencer freshly created with `googDebug = false`,
`reporterReady = false`: promise id `k + 1`, preceding promise id `k`,
owned, labelled "u". -/
def mkUnit (k : Nat) : promise :=
  { promiseId := k + 1, precedingPromise := some k, hasContainer := true,
    msg := "u" }

/-- The sentinel unit as it sits in the queue right after construction:
promise id 0, preceding promise pointing at its own promise. -/
def sentinelUnit : promise :=
  { promiseId := 0, precedingPromise := some 0, hasContainer := true, msg := "" }

/-- Issue `n` chained units in order from a fresh sequencer, collecting
the issued units. -/
def issueUnits : Nat → chainedPromises × List promise
  | 0 => (chainedPromises.create "test" false false, [])
  | n + 1 =>
      let r := issueUnits n
      let r1 := r.1.getChainedPromise "u"
      (r1.2, r.2 ++ [r1.1])

/-- The i-th unit (0-based) among `n` units issued in order from a fresh
sequencer. -/
def unitAt (n i : Nat) : promise :=
  ((issueUnits n).2).getD i default

/-- The sequencer bookkeeping invariant: the queue holds exactly one
more entry than there are pending units, and is never empty. -/
def chainInv (st : chainedPromises) : Prop :=
  (st.promises.length : Int) = st.pendingCount + 1 ∧ st.promises ≠ []

/-- A sample debug-build sequencer state with one issued, unsettled
unit outstanding. -/
def sampleChainState : chainedPromises :=
  ((chainedPromises.create "t" true true).getChainedPromise "a").2

/-! Helper lemmas characterising the operations. -/

theorem settlePromise_promises (i : Nat) (st : chainedPromises) :
    (settlePromise i st).promises = st.promises := by
  unfold settlePromise; split <;> rfl

theorem settlePromise_pendingCount (i : Nat) (st : chainedPromises) :
    (settlePromise i st).pendingCount = st.pendingCount := by
  unfold settlePromise; split <;> rfl

theorem settlePromise_chainedCount (i : Nat) (st : chainedPromises) :
    (settlePromise i st).chainedCount = st.chainedCount := by
  unfold settlePromise; split <;> rfl

theorem settlePromise_settledIds (i : Nat) (st : chainedPromises) :
    (settlePromise i st).settledIds =
      (if i ∈ st.settledIds then st.settledIds else st.settledIds ++ [i]) := by
  unfold settlePromise; split <;> simp_all

theorem reportError_promises (st : chainedPromises) (a b : String) :
    (promise.reportError_ st a b).promises = st.promises := by
  unfold promise.reportError_; split <;> rfl

theorem reportError_pendingCount (st : chainedPromises) (a b : String) :
    (promise.reportError_ st a b).pendingCount = st.pendingCount := by
  unfold promise.reportError_; split <;> rfl

theorem reportError_settledIds (st : chainedPromises) (a b : String) :
    (promise.reportError_ st a b).settledIds = st.settledIds := by
  unfold promise.reportError_; split <;> rfl

theorem reportError_logs (st : chainedPromises) (a b : String) :
    (promise.reportError_ st a b).logs = st.logs := by
  unfold promise.reportError_; split <;> rfl

theorem reportError_timerReportCount (st : chainedPromises) (a b : String) :
    (promise.reportError_ st a b).timerReportCount = st.timerReportCount := by
  unfold promise.reportError_; split <;> rfl

/-- Full effect of `resolve` on the queue, the pending count and the
settled-promise set, for a container-owned unit: the retirement
bookkeeping runs on every call, gated only on the queue length, while
the underlying promise settles at most once. -/
theorem promise.resolve_char (p : promise) (st : chainedPromises)
    (hp : p.hasContainer = true) :
    (p.resolve st).promises =
        (if 1 < st.promises.length then st.promises.tail else st.promises) ∧
    (p.resolve st).pendingCount =
        (if 1 < st.promises.length then st.pendingCount - 1 else st.pendingCount) ∧
    (p.resolve st).settledIds =
        (if p.promiseId ∈ st.settledIds then st.settledIds
         else st.settledIds ++ [p.promiseId]) := by
  unfold promise.resolve
  simp only [hp, if_true]
  split_ifs <;>
    simp_all [settlePromise_promises, settlePromise_pendingCount,
      settlePromise_chainedCount, settlePromise_settledIds,
      reportError_promises, reportError_pendingCount, reportError_settledIds]

/-- Full effect of `reject` on the queue, the pending count and the
settled-promise set, for a container-owned unit. -/
theorem promise.reject_char (p : promise) (st : chainedPromises)
    (hp : p.hasContainer = true) :
    (p.reject st).promises =
        (if 1 < st.promises.length then st.promises.tail else st.promises) ∧
    (p.reject st).pendingCount =
        (if 1 < st.promises.length then st.pendingCount - 1 else st.pendingCount) ∧
    (p.reject st).settledIds =
        (if p.promiseId ∈ st.settledIds then st.settledIds
         else st.settledIds ++ [p.promiseId]) := by
  unfold promise.reject
  simp only [hp, if_true]
  split_ifs <;>
    simp_all [settlePromise_promises, settlePromise_pendingCount,
      settlePromise_chainedCount, settlePromise_settledIds,
      reportError_promises, reportError_pendingCount, reportError_settledIds]

/-- `resolve` on a standalone unit (no container) touches neither the
queue nor the pending count. -/
theorem promise.resolve_nc (p : promise) (st : chainedPromises)
    (hp : p.hasContainer = false) :
    (p.resolve st).promises = st.promises ∧
    (p.resolve st).pendingCount = st.pendingCount := by
  unfold promise.resolve
  simp [hp, settlePromise_promises, settlePromise_pendingCount]

/-- `reject` on a standalone unit (no container) touches neither the
queue nor the pending count. -/
theorem promise.reject_nc (p : promise) (st : chainedPromises)
    (hp : p.hasContainer = false) :
    (p.reject st).promises = st.promises ∧
    (p.reject st).pendingCount = st.pendingCount := by
  unfold promise.reject
  simp [hp, settlePromise_promises, settlePromise_pendingCount]

/-- The unit returned by `getChainedPromise`: fresh promise id, owned,
labelled by the caller, preceded by the promise of the unit at the
queue tail. -/
theorem getChainedPromise_fst (st : chainedPromises) (msg : String) :
    (st.getChainedPromise msg).1 =
      { promiseId := st.nextId,
        precedingPromise := st.promises.getLast?.map promise.promiseId,
        hasContainer := true, msg := msg } := by
  unfold chainedPromises.getChainedPromise promise.create
  by_cases h : st.googDebug <;> simp [h]

/-- The state effect of `getChainedPromise`: both counters increase by
one, the new unit is appended as the new tail, and the queue entries,
settled set and environment flags are otherwise untouched. -/
theorem getChainedPromise_snd (st : chainedPromises) (msg : String) :
    (st.getChainedPromise msg).2.chainedCount = st.chainedCount + 1 ∧
    (st.getChainedPromise msg).2.pendingCount = st.pendingCount + 1 ∧
    (st.getChainedPromise msg).2.promises =
      st.promises ++ [(st.getChainedPromise msg).1] ∧
    (st.getChainedPromise msg).2.nextId = st.nextId + 1 ∧
    (st.getChainedPromise msg).2.settledIds = st.settledIds ∧
    (st.getChainedPromise msg).2.googDebug = st.googDebug ∧
    (st.getChainedPromise msg).2.reporterReady = st.reporterReady ∧
    (st.getChainedPromise msg).2.timerActive = st.timerActive ∧
    (st.getChainedPromise msg).2.timerReportCount = st.timerReportCount ∧
    (st.getChainedPromise msg).2.errors = st.errors ∧
    (st.getChainedPromise msg).2.msg = st.msg := by
  unfold chainedPromises.getChainedPromise promise.create
  by_cases h : st.googDebug <;> simp [h]

/-- The constructed sequencer state, explicitly: one pre-settled
sentinel unit in the queue, all counters zero. -/
theorem create_eq (msg : String) (d r : Bool) :
    chainedPromises.create msg d r =
      { chainedCount := 0, pendingCount := 0, msg := msg ++ ": ",
        timerReportCount := 0, timerActive := true,
        promises := [sentinelUnit], settledIds := [0], nextId := 1,
        logs := [], errors := [], googDebug := d, reporterReady := r } := by
  rfl

/-- Construction establishes the bookkeeping invariant. -/
theorem chainInv_create (msg : String) (d r : Bool) :
    chainInv (chainedPromises.create msg d r) := by
  rw [create_eq]
  exact ⟨by norm_num, by simp⟩

/-- `getChainedPromise` preserves the bookkeeping invariant. -/
theorem chainInv_getChainedPromise (st : chainedPromises) (msg : String)
    (h : chainInv st) : chainInv (st.getChainedPromise msg).2 := by
  obtain ⟨h1, h2⟩ := h
  obtain ⟨-, hpd, hpr, -⟩ := getChainedPromise_snd st msg
  unfold chainInv
  refine ⟨?_, ?_⟩
  · rw [hpd, hpr]
    simp only [List.length_append, List.length_cons, List.length_nil]
    push_cast
    omega
  · rw [hpr]
    simp

/-- `resolve` preserves the bookkeeping invariant, for any unit and in
particular also for repeated settles of the same unit. -/
theorem chainInv_resolve (p : promise) (st : chainedPromises)
    (h : chainInv st) : chainInv (p.resolve st) := by
  obtain ⟨h1, h2⟩ := h
  unfold chainInv
  by_cases hp : p.hasContainer
  · obtain ⟨hpr, hpd, -⟩ := promise.resolve_char p st hp
    by_cases hl : 1 < st.promises.length
    · rw [hpr, hpd]
      simp only [hl, if_true]
      constructor
      · rw [List.length_tail]
        omega
      · rw [← List.length_pos_iff_ne_nil, List.length_tail]
        omega
    · rw [hpr, hpd]
      simp only [hl, if_false]
      exact ⟨h1, h2⟩
  · obtain ⟨hpr, hpd⟩ := promise.resolve_nc p st (by simpa using hp)
    rw [hpr, hpd]
    exact ⟨h1, h2⟩

/-- `reject` preserves the bookkeeping invariant, for any unit and in
particular also for repeated settles of the same unit. -/
theorem chainInv_reject (p : promise) (st : chainedPromises)
    (h : chainInv st) : chainInv (p.reject st) := by
  obtain ⟨h1, h2⟩ := h
  unfold chainInv
  by_cases hp : p.hasContainer
  · obtain ⟨hpr, hpd, -⟩ := promise.reject_char p st hp
    by_cases hl : 1 < st.promises.length
    · rw [hpr, hpd]
      simp only [hl, if_true]
      constructor
      · rw [List.length_tail]
        omega
      · rw [← List.length_pos_iff_ne_nil, List.length_tail]
        omega
    · rw [hpr, hpd]
      simp only [hl, if_false]
      exact ⟨h1, h2⟩
  · obtain ⟨hpr, hpd⟩ := promise.reject_nc p st (by simpa using hp)
    rw [hpr, hpd]
    exact ⟨h1, h2⟩

/-- Settling a sequence of container-owned units, each counted once, in
any completion order: every settle finds the queue longer than one entry
(because enough units are still pending), so the pending count drops by
exactly the number of settles, and the invariant is maintained. -/
theorem resolveSeq_spec (order : List promise) :
    ∀ st : chainedPromises,
      (∀ q ∈ order, q.hasContainer = true) →
      (st.promises.length : Int) = st.pendingCount + 1 →
      (order.length : Int) ≤ st.pendingCount →
      (resolveSeq order st).pendingCount = st.pendingCount - order.length ∧
      ((resolveSeq order st).promises.length : Int) =
        (resolveSeq order st).pendingCount + 1 := by
  induction order with
  | nil =>
      intro st _ hinv _
      exact ⟨by simp [resolveSeq], by simpa [resolveSeq] using hinv⟩
  | cons q rest ih =>
      intro st hc hinv hlen
      have hq : q.hasContainer = true := hc q (by simp)
      obtain ⟨hpr, hpd, -⟩ := promise.resolve_char q st hq
      have hlt : 1 < st.promises.length := by
        simp only [List.length_cons] at hlen
        omega
      have hpd1 : (q.resolve st).pendingCount = st.pendingCount - 1 := by
        rw [hpd]; simp [hlt]
      have hinv1 : ((q.resolve st).promises.length : Int) =
          (q.resolve st).pendingCount + 1 := by
        rw [hpr, hpd1]
        simp only [hlt, if_true]
        rw [List.length_tail]
        omega
      have hlen1 : ((rest.length : Nat) : Int) ≤ (q.resolve st).pendingCount := by
        rw [hpd1]
        simp only [List.length_cons] at hlen
        push_cast at hlen
        omega
      have key := ih (q.resolve st) (fun x hx => hc x (by simp [hx])) hinv1 hlen1
      have hfold : resolveSeq (q :: rest) st = resolveSeq rest (q.resolve st) := rfl
      rw [hfold]
      refine ⟨?_, key.2⟩
      rw [key.1, hpd1]
      simp only [List.length_cons]
      push_cast
      omega

/-- Characterisation of issuing `n` units in order from a fresh
sequencer: the issued units are `mkUnit 0, …, mkUnit (n-1)`, the queue
is the sentinel followed by them, and the counters record `n` issued
and `n` pending. -/
theorem issueUnits_char (n : Nat) :
    (issueUnits n).2 = (List.range n).map mkUnit ∧
    (issueUnits n).1.promises = sentinelUnit :: (List.range n).map mkUnit ∧
    (issueUnits n).1.pendingCount = n ∧
    (issueUnits n).1.chainedCount = n ∧
    (issueUnits n).1.nextId = n + 1 := by
  induction n with
  | zero =>
      refine ⟨rfl, ?_, rfl, rfl, rfl⟩
      rw [show (issueUnits 0).1 = chainedPromises.create "test" false false from rfl,
        create_eq]
      simp
  | succ n ih =>
      obtain ⟨hu, hpr, hpd, hcc, hni⟩ := ih
      have hstep : issueUnits (n + 1) =
          (((issueUnits n).1.getChainedPromise "u").2,
            (issueUnits n).2 ++ [((issueUnits n).1.getChainedPromise "u").1]) := rfl
      have hlast : (issueUnits n).1.promises.getLast?.map promise.promiseId =
          some n := by
        rw [hpr]
        cases n with
        | zero => rfl
        | succ m =>
            simp only [List.range_succ, List.map_append, List.map_cons,
              List.map_nil, ← List.cons_append, List.getLast?_concat,
              Option.map_some]
            rfl
      have hfst : ((issueUnits n).1.getChainedPromise "u").1 = mkUnit n := by
        rw [getChainedPromise_fst, hni, hlast]
        rfl
      obtain ⟨hcc2, hpd2, hpr2, hni2, -⟩ :=
        getChainedPromise_snd (issueUnits n).1 "u"
      rw [hstep]
      refine ⟨?_, ?_, ?_, ?_, ?_⟩
      · simp only [hu, hfst, List.range_succ, List.map_append, List.map_cons,
          List.map_nil]
      · simp only [hpr2, hfst, hpr, List.range_succ, List.map_append,
          List.map_cons, List.map_nil, List.cons_append]
      · rw [hpd2, hpd]; push_cast; ring
      · rw [hcc2, hcc]
      · rw [hni2, hni]

/-- Every issued unit is container-owned. -/
theorem issueUnits_hasContainer (n : Nat) :
    ∀ q ∈ (issueUnits n).2, q.hasContainer = true := by
  intro q hq
  rw [(issueUnits_char n).1] at hq
  obtain ⟨k, -, rfl⟩ := List.mem_map.mp hq
  rfl

/-- The i-th issued unit, for `i < n`. -/
theorem unitAt_eq (n i : Nat) (h : i < n) : unitAt n i = mkUnit i := by
  unfold unitAt
  rw [(issueUnits_char n).1, List.getD_eq_getElem _ _ (by simpa using h)]
  simp

/-- A watchdog tick that observes a nonzero pending count increments
the miss streak by one, and in debug builds appends one log entry. -/
theorem tick_miss (st : chainedPromises) (ha : st.timerActive = true)
    (hp : st.pendingCount ≠ 0) :
    (chainedPromises.tick st).timerReportCount = st.timerReportCount + 1 ∧
    (st.googDebug = true →
      (chainedPromises.tick st).logs.length = st.logs.length + 1) := by
  unfold chainedPromises.tick
  simp only [ha, if_true, hp, ite_true, ne_eq, not_false_eq_true]
  split_ifs <;>
    simp_all [reportError_logs, reportError_timerReportCount, List.length_append]

/-- A watchdog tick that observes a zero pending count resets the miss
streak. -/
theorem tick_zero (st : chainedPromises) (ha : st.timerActive = true)
    (hp : st.pendingCount = 0) :
    (chainedPromises.tick st).timerReportCount = 0 := by
  unfold chainedPromises.tick
  simp [ha, hp]

/-! Claim theorems. -/

/-- C9: every Sequencer operation — construction, `getChainedPromise`,
`resolve` and `reject`, including repeated settles of the same unit —
keeps the invariant that the queue length equals `pendingCount + 1`;
consequently the queue is never empty and `pendingCount` is never
negative. -/
theorem chainInv_all_operations (msg m2 : String) (d r : Bool)
    (st : chainedPromises) (p : promise) (h : chainInv st) :
    chainInv (chainedPromises.create msg d r) ∧
    chainInv (st.getChainedPromise m2).2 ∧
    chainInv (p.resolve st) ∧
    chainInv (p.reject st) ∧
    st.promises ≠ [] ∧ 0 ≤ st.pendingCount := by
  refine ⟨chainInv_create msg d r, chainInv_getChainedPromise st m2 h,
    chainInv_resolve p st h, chainInv_reject p st h, h.2, ?_⟩
  obtain ⟨h1, h2⟩ := h
  have hlen : 0 < st.promises.length := List.length_pos.mpr h2
  omega

/-- Witness for C9 at a freshly constructed sequencer with the sentinel
as the settled unit. -/
theorem chainInv_all_operations_witness :
    chainInv ((chainedPromises.create "x" true true).getChainedPromise "y").2 :=
  (chainInv_all_operations "x" "y" true true
    (chainedPromises.create "x" true true) sentinelUnit
    ⟨by decide, by decide⟩).2.1

/-- C6: `getChainedPromise` increments `chainedCount` and
`pendingCount` each by exactly one, gives the new unit the promise of
the unit at the queue tail as its preceding promise, appends the new
unit as the new queue tail (leaving previously queued units unchanged),
and returns that unit. -/
theorem getChainedPromise_effect (st : chainedPromises) (msg : String)
    (h : st.promises ≠ []) :
    (st.getChainedPromise msg).2.chainedCount = st.chainedCount + 1 ∧
    (st.getChainedPromise msg).2.pendingCount = st.pendingCount + 1 ∧
    (st.getChainedPromise msg).2.promises =
      st.promises ++ [(st.getChainedPromise msg).1] ∧
    (st.getChainedPromise msg).1.precedingPromise =
      some ((st.promises.getLast h).promiseId) ∧
    (st.getChainedPromise msg).1.hasContainer = true ∧
    (st.getChainedPromise msg).1.msg = msg := by
  obtain ⟨h1, h2, h3, -⟩ := getChainedPromise_snd st msg
  refine ⟨h1, h2, h3, ?_, ?_, ?_⟩
  · rw [getChainedPromise_fst]
    simp [List.getLast?_eq_getLast_of_ne_nil h]
  · rw [getChainedPromise_fst]
  · rw [getChainedPromise_fst]

/-- Witness for C6 at a freshly constructed sequencer. -/
theorem getChainedPromise_effect_witness :
    (((chainedPromises.create "w" true true).getChainedPromise "m").2.chainedCount =
        (chainedPromises.create "w" true true).chainedCount + 1 ∧
      ((chainedPromises.create "w" true true).getChainedPromise "m").2.pendingCount =
        (chainedPromises.create "w" true true).pendingCount + 1 ∧
      ((chainedPromises.create "w" true true).getChainedPromise "m").2.promises =
        (chainedPromises.create "w" true true).promises ++
          [((chainedPromises.create "w" true true).getChainedPromise "m").1] ∧
      ((chainedPromises.create "w" true true).getChainedPromise "m").1.precedingPromise =
        some (((chainedPromises.create "w" true true).promises.getLast
          (by decide)).promiseId) ∧
      ((chainedPromises.create "w" true true).getChainedPromise "m").1.hasContainer =
        true ∧
      ((chainedPromises.create "w" true true).getChainedPromise "m").1.msg = "m") :=
  getChainedPromise_effect (chainedPromises.create "w" true true) "m" (by decide)

/-- C2 counterexample: with two units issued, resolving the first unit
a second time decrements `pendingCount` again (from 1 to 0) and retires
a second entry from the queue head (queue length 2 to 1), even though
the second unit was never settled. -/
theorem double_resolve_double_decrements :
    (let st0 := chainedPromises.create "t" true true
     let r1 := st0.getChainedPromise "a"
     let r2 := r1.2.getChainedPromise "b"
     let st3 := r1.1.resolve r2.2
     let st4 := r1.1.resolve st3
     st3.pendingCount = 1 ∧ st3.promises.length = 2 ∧
     st4.pendingCount = 0 ∧ st4.promises.length = 1) := by
  decide

/-- C2 amended: the underlying promise settles at most once (the
settled set is unchanged by a second resolve), but the queue-retirement
bookkeeping runs on every resolve call: a second resolve of an
already-settled unit again retires the queue head and decrements
`pendingCount` whenever the queue holds more than one entry at call
time; only on a queue of length at most one does it leave the queue and
the pending count unchanged. -/
theorem resolve_bookkeeping_every_call (p : promise) (st : chainedPromises)
    (hp : p.hasContainer = true) (hsettled : p.promiseId ∈ st.settledIds) :
    (p.resolve st).settledIds = st.settledIds ∧
    (1 < st.promises.length →
      (p.resolve st).pendingCount = st.pendingCount - 1 ∧
      (p.resolve st).promises = st.promises.tail) ∧
    (st.promises.length ≤ 1 →
      (p.resolve st).pendingCount = st.pendingCount ∧
      (p.resolve st).promises = st.promises) := by
  obtain ⟨h1, h2, h3⟩ := promise.resolve_char p st hp
  refine ⟨?_, ?_, ?_⟩
  · rw [h3]
    simp [hsettled]
  · intro hl
    rw [h1, h2]
    simp [hl]
  · intro hl
    rw [h1, h2]
    have : ¬ 1 < st.promises.length := by omega
    simp [this]

/-- Witness for C2's amended statement: the second resolve of the first
issued unit, with a second unit still queued behind it. -/
theorem resolve_bookkeeping_every_call_witness :
    ((mkUnit 0).resolve ((mkUnit 0).resolve (issueUnits 2).1)).pendingCount =
      ((mkUnit 0).resolve (issueUnits 2).1).pendingCount - 1 ∧
    ((mkUnit 0).resolve ((mkUnit 0).resolve (issueUnits 2).1)).promises =
      ((mkUnit 0).resolve (issueUnits 2).1).promises.tail :=
  (resolve_bookkeeping_every_call (mkUnit 0)
    ((mkUnit 0).resolve (issueUnits 2).1) (by decide) (by decide)).2.1 (by decide)

/-- C3 counterexample: the sentinel unit created at construction does
not have an undefined preceding promise — it is defined, pointing at
the sentinel's own promise. -/
theorem sentinel_precedingPromise_defined :
    ((chainedPromises.create "t" true true).promises.getD 0 default).precedingPromise
        = some 0 ∧
    ((chainedPromises.create "t" true true).promises.getD 0 default).precedingPromise
        ≠ none := by
  decide

/-- C3 amended: `precedingPromise` is undefined only for standalone
units created outside any Sequencer; the sentinel unit's preceding
promise is defined — it is its own promise — and every unit issued via
`getChainedPromise` has as preceding promise the promise of the unit at
the queue tail at its creation time. -/
theorem precedingPromise_defined (msg m2 lbl : String) (d r : Bool) (i : Nat)
    (st : chainedPromises) (h : st.promises ≠ []) :
    ((chainedPromises.create msg d r).promises.getD 0 default).precedingPromise =
      some (((chainedPromises.create msg d r).promises.getD 0 default).promiseId) ∧
    (promise.create false lbl i).precedingPromise = none ∧
    (st.getChainedPromise m2).1.precedingPromise =
      some ((st.promises.getLast h).promiseId) := by
  refine ⟨?_, rfl, ?_⟩
  · rw [create_eq]
    rfl
  · rw [getChainedPromise_fst]
    simp [List.getLast?_eq_getLast_of_ne_nil h]

/-- Witness for C3's amended statement at a fresh sequencer. -/
theorem precedingPromise_defined_witness :
    ((chainedPromises.create "t" false false).promises.getD 0 default).precedingPromise =
      some (((chainedPromises.create "t" false false).promises.getD 0 default).promiseId) ∧
    (promise.create false "s" 7).precedingPromise = none ∧
    ((chainedPromises.create "t" false false).getChainedPromise "a").1.precedingPromise =
      some (((chainedPromises.create "t" false false).promises.getLast
        (by decide)).promiseId) :=
  precedingPromise_defined "t" "a" "s" false false 7
    (chainedPromises.create "t" false false) (by decide)

/-- C4 counterexample: the sentinel unit created at construction is in
the queue beforehand and is evicted from the queue by the very first
settle of the first issued unit. -/
theorem sentinel_evicted_on_first_settle :
    (let st0 := chainedPromises.create "t" true true
     let r1 := st0.getChainedPromise "a"
     let st2 := r1.1.resolve r1.2
     st0.promises.getD 0 default ∈ st0.promises ∧
     st0.promises.getD 0 default ∉ st2.promises) := by
  decide

/-- C4 amended: each settle operation (`resolve` or `reject`) on a
container-owned unit retires at most one entry — the queue head — and
decrements `pendingCount` by exactly one, with both happening exactly
when the queue length exceeds one and neither otherwise; the queue
never becomes empty, but the entry retired is the current head, so the
construction sentinel itself is evicted at the first retirement. -/
theorem settle_retirement (st : chainedPromises) (p : promise)
    (hp : p.hasContainer = true) :
    (1 < st.promises.length →
      (p.resolve st).promises = st.promises.tail ∧
      (p.resolve st).pendingCount = st.pendingCount - 1 ∧
      (p.reject st).promises = st.promises.tail ∧
      (p.reject st).pendingCount = st.pendingCount - 1) ∧
    (st.promises.length ≤ 1 →
      (p.resolve st).promises = st.promises ∧
      (p.resolve st).pendingCount = st.pendingCount ∧
      (p.reject st).promises = st.promises ∧
      (p.reject st).pendingCount = st.pendingCount) ∧
    (st.promises ≠ [] →
      (p.resolve st).promises ≠ [] ∧ (p.reject st).promises ≠ []) := by
  obtain ⟨hrv1, hrv2, -⟩ := promise.resolve_char p st hp
  obtain ⟨hrj1, hrj2, -⟩ := promise.reject_char p st hp
  refine ⟨?_, ?_, ?_⟩
  · intro hl
    rw [hrv1, hrv2, hrj1, hrj2]
    simp [hl]
  · intro hl
    have hnl : ¬ 1 < st.promises.length := by omega
    rw [hrv1, hrv2, hrj1, hrj2]
    simp [hnl]
  · intro hne
    rw [hrv1, hrj1]
    by_cases hl : 1 < st.promises.length
    · simp only [hl, if_true]
      constructor <;>
        · rw [← List.length_pos_iff_ne_nil, List.length_tail]
          omega
    · simp only [hl, if_false]
      exact ⟨hne, hne⟩

/-- Witness for C4's amended statement: the first settle against a
queue of length 2. -/
theorem settle_retirement_witness :
    ((mkUnit 0).resolve (issueUnits 1).1).promises =
      (issueUnits 1).1.promises.tail ∧
    ((mkUnit 0).resolve (issueUnits 1).1).pendingCount =
      (issueUnits 1).1.pendingCount - 1 ∧
    ((mkUnit 0).reject (issueUnits 1).1).promises =
      (issueUnits 1).1.promises.tail ∧
    ((mkUnit 0).reject (issueUnits 1).1).pendingCount =
      (issueUnits 1).1.pendingCount - 1 :=
  (settle_retirement (issueUnits 1).1 (mkUnit 0) (by decide)).1 (by decide)

/-- C1: for `n` chained units issued in order, each unit's preceding
promise is exactly the promise of the immediately previously issued
unit; and for any caller schedule obeying the documented protocol —
each unit's protected work begins (`workStart`) only after the promise
named by its preceding handle has settled (`settledAt`), and each unit
settles only after its own work began — settlements occur in issuance
order, regardless of how the schedule orders them in wall-clock time
otherwise. -/
theorem chained_settlements_in_issuance_order (n : Nat)
    (workStart settledAt : Nat → Nat)
    (hwork : ∀ i, i < n → workStart i < settledAt (unitAt n i).promiseId)
    (hwait : ∀ i, i < n → ∀ pid, (unitAt n i).precedingPromise = some pid →
      settledAt pid < workStart i) :
    (∀ i, i + 1 < n →
      (unitAt n (i + 1)).precedingPromise = some (unitAt n i).promiseId) ∧
    (∀ i j, i < j → j < n →
      settledAt (unitAt n i).promiseId < settledAt (unitAt n j).promiseId) := by
  have hpre : ∀ i, i + 1 < n →
      (unitAt n (i + 1)).precedingPromise = some (unitAt n i).promiseId := by
    intro i hi
    rw [unitAt_eq n (i + 1) hi, unitAt_eq n i (by omega)]
    rfl
  refine ⟨hpre, ?_⟩
  have step : ∀ k, k + 1 < n →
      settledAt (unitAt n k).promiseId < settledAt (unitAt n (k + 1)).promiseId := by
    intro k hk
    have h1 := hwait (k + 1) hk (unitAt n k).promiseId (hpre k hk)
    have h2 := hwork (k + 1) hk
    omega
  intro i j
  induction j with
  | zero => intro h1 _; omega
  | succ j ihj =>
      intro hij hjn
      rcases Nat.lt_succ_iff_lt_or_eq.mp hij with hlt | heq
      · exact (ihj hlt (by omega)).trans (step j hjn)
      · subst heq
        exact step i hjn

/-- Witness for C1: two issued units under the schedule in which unit
`i` starts work at time `2 i + 1` and promise `pid` settles at time
`2 pid`. -/
theorem chained_settlements_witness :
    2 * (unitAt 2 0).promiseId < 2 * (unitAt 2 1).promiseId := by
  have h := chained_settlements_in_issuance_order 2
    (fun i => 2 * i + 1) (fun pid => 2 * pid)
    (fun i hi => by
      rw [unitAt_eq 2 i hi]
      simp only [mkUnit]
      omega)
    (fun i hi pid hpid => by
      rw [unitAt_eq 2 i hi] at hpid
      simp only [mkUnit, Option.some.injEq] at hpid
      subst hpid
      show 2 * i < 2 * i + 1
      omega)
  exact h.2 0 1 (by omega) (by omega)

/-- C5: with `M` units issued, settling all `M` of them once each, in
any completion order, brings `pendingCount` to 0; settling any `M - 1`
of them once each brings it to 1. -/
theorem pendingCount_after_settles (M : Nat) (order : List promise)
    (hsub : order.Subperm (issueUnits M).2) :
    (order.length = M →
      (resolveSeq order (issueUnits M).1).pendingCount = 0) ∧
    (order.length = M - 1 → 1 ≤ M →
      (resolveSeq order (issueUnits M).1).pendingCount = 1) := by
  obtain ⟨hu, hpr, hpd, -⟩ := issueUnits_char M
  have hinv : ((issueUnits M).1.promises.length : Int) =
      (issueUnits M).1.pendingCount + 1 := by
    rw [hpr, hpd]
    simp only [List.length_cons, List.length_map, List.length_range]
    push_cast
    ring
  have hc : ∀ q ∈ order, q.hasContainer = true := fun q hq =>
    issueUnits_hasContainer M q (hsub.subset hq)
  constructor
  · intro hM
    have key := resolveSeq_spec order (issueUnits M).1 hc hinv
      (by rw [hpd, hM])
    rw [key.1, hpd, hM]
    ring
  · intro hM h1
    have key := resolveSeq_spec order (issueUnits M).1 hc hinv
      (by rw [hpd, hM]; omega)
    rw [key.1, hpd, hM]
    omega

/-- Witness for C5: two units issued and settled in reverse order. -/
theorem pendingCount_after_settles_witness :
    (resolveSeq [mkUnit 1, mkUnit 0] (issueUnits 2).1).pendingCount = 0 :=
  (pendingCount_after_settles 2 [mkUnit 1, mkUnit 0]
    (List.Perm.subperm (by decide))).1 rfl

/-- C7: while the watchdog timer is scheduled, a tick observing a
nonzero pending count increments the miss streak and (in debug builds)
emits one diagnostic log entry, and a tick observing a zero pending
count resets the streak to zero; with one never-settled unit
outstanding, ten consecutive ticks produce exactly one
`LINGERING_PROMISE` error diagnostic and cancel the timer, after which
a further tick changes nothing. -/
theorem watchdog_behaviour :
    (∀ st : chainedPromises, st.timerActive = true → st.pendingCount ≠ 0 →
      (chainedPromises.tick st).timerReportCount = st.timerReportCount + 1 ∧
      (st.googDebug = true →
        (chainedPromises.tick st).logs.length = st.logs.length + 1)) ∧
    (∀ st : chainedPromises, st.timerActive = true → st.pendingCount = 0 →
      (chainedPromises.tick st).timerReportCount = 0) ∧
    (List.countP
        (fun e => e.1 = promise.Error_.FILE_ID ++ promise.Error_.LINGERING_PROMISE)
        ((chainedPromises.tick)^[10] sampleChainState).errors = 1 ∧
      ((chainedPromises.tick)^[10] sampleChainState).timerActive = false ∧
      chainedPromises.tick ((chainedPromises.tick)^[10] sampleChainState) =
        (chainedPromises.tick)^[10] sampleChainState) := by
  refine ⟨fun st ha hp => tick_miss st ha hp, fun st ha hp => tick_zero st ha hp, ?_⟩
  decide

/-- Witness for C7 at the sample state with one pending unit. -/
theorem watchdog_behaviour_witness :
    (chainedPromises.tick sampleChainState).timerReportCount =
      sampleChainState.timerReportCount + 1 :=
  (watchdog_behaviour.1 sampleChainState (by decide) (by decide)).1

/-- C8: saving bytes and then reading them back from the same store
under the fixed key yields the bytes unchanged, and reading a store
holding nothing under the fixed key rejects with the not-found signal
instead of resolving with `undefined`. -/
theorem store_roundtrip (store : Persist.IdbStore) (bytes : Persist.BytesData)
    (h : Persist.storeGet store 0 = none) :
    Persist.getData (Persist.saveData store bytes) = Except.ok bytes ∧
    Persist.getData store = Except.error Persist.GetFailure.notFound := by
  constructor
  · unfold Persist.getData Persist.saveData Persist.storePut Persist.storeGet
    simp
  · unfold Persist.getData
    rw [h]

/-- Witness for C8 at the empty store. -/
theorem store_roundtrip_witness :
    Persist.getData (Persist.saveData [] [1, 2, 3]) = Except.ok [1, 2, 3] ∧
    Persist.getData [] = Except.error Persist.GetFailure.notFound :=
  store_roundtrip [] [1, 2, 3] rfl

/-- C10: with the reporter ready, `deleteDatabase` forwards exactly one
diagnostic report on every outcome — `DELETED_DATA` even on success,
before resolving — and the failure paths reject with the distinct
reasons 1 (delete failed, `DELETE_DATA_FAILED`) and 2 (delete blocked,
`DELETE_DATA_BLOCKED`) after reporting. -/
theorem deleteDatabase_reports (id : String) :
    (∀ ev, ((Persist.deleteDatabase true id ev).1).length = 1) ∧
    Persist.deleteDatabase true id Persist.DeleteEvent.onsuccess =
      ([(Persist.Error.FILE_ID ++ Persist.Error.DELETED_DATA, id,
          "Deleted database successfully")], Except.ok ()) ∧
    Persist.deleteDatabase true id Persist.DeleteEvent.onerror =
      ([(Persist.Error.FILE_ID ++ Persist.Error.DELETE_DATA_FAILED, id,
          "Delete database failed")], Except.error 1) ∧
    Persist.deleteDatabase true id Persist.DeleteEvent.onblocked =
      ([(Persist.Error.FILE_ID ++ Persist.Error.DELETE_DATA_BLOCKED, id,
          "Delete database blocked")], Except.error 2) := by
  refine ⟨?_, rfl, rfl, rfl⟩
  intro ev
  cases ev <;> rfl

end tachyfont
